import Mathlib

/-!
Shallow embedding of the RAGFlowAssistant conversation core (`src/main.py`):
the reference normalizer (`format_reference`), the stream accumulator
(`process_stream_response`), the session lifecycle / gate / history logic of
`main_content`, the reset (`create_new_chat`) and the unique-name generator
(`generate_unique_name`), together with theorems settling the spec claims.

External effects (Streamlit rendering calls, the RAGFlow SDK network calls,
wall-clock time, `uuid.uuid4()`) are modelled as explicit parameters or ghost
instrumentation fields; everything the Python functions compute over their
inputs is translated directly.
-/

set_option autoImplicit false

namespace RAGFlowAssistant

/-- A value stored in a reference mapping: the four canonical fields hold
strings or a number (`similarity`). Mirrors the heterogeneous Python dict. -/
inductive Val where
  | str : String → Val
  | num : Rat → Val
deriving DecidableEq, Repr

/-- A plain key/value mapping, the Python `dict` shape of a raw reference
and also the canonical output shape of `format_reference`. -/
abbrev RefDict := List (String × Val)

/-- An attribute-object shaped raw reference: each of the four attributes the
code reads with `getattr(ref, name, default)` may be present or absent. -/
structure RefObj where
  document_name : Option String
  similarity : Option Rat
  content : Option String
  document_id : Option String
deriving DecidableEq, Repr

/-- A raw reference as received from the backend: either a plain mapping
(`isinstance(ref, dict)` branch) or an attribute-object. -/
inductive RawRef where
  | dict : RefDict → RawRef
  | obj : RefObj → RawRef
deriving DecidableEq, Repr

/-- `format_reference` (src/main.py lines 138-149): a `dict` input is returned
unchanged; an object input is converted to a dict, reading each attribute with
a default (`未知文档`, `0.0`, `""`, `""`) when absent. -/
def format_reference : RawRef → RefDict
  | .dict d => d
  | .obj o =>
      [("document_name", .str (o.document_name.getD "未知文档")),
       ("similarity", .num (o.similarity.getD 0)),
       ("content", .str (o.content.getD "")),
       ("document_id", .str (o.document_id.getD ""))]

/-- The fully-defaulted reference record the spec says `normalize` returns for
an input missing all four fields. -/
def default_reference : RefDict :=
  [("document_name", .str "未知文档"),
   ("similarity", .num 0),
   ("content", .str ""),
   ("document_id", .str "")]

/-- One streamed fragment (`response` in the `session.ask` loop): the full
answer-so-far in `content`, and an optional `reference` attribute.  `none`
covers both a missing attribute (`hasattr` false) and Python `None`. -/
structure StreamResponse where
  content : String
  reference : Option (List RawRef)
deriving DecidableEq, Repr

/-- The error text built at src/main.py line 173:
`f"抱歉，处理您的问题时出现错误: {str(e)}"`. -/
def stream_error_text (e : String) : String :=
  "抱歉，处理您的问题时出现错误: " ++ e

/-- The state of the `for response in session.ask(...)` loop (src/main.py
lines 154-161): `full_response` is overwritten with each fragment's full
content, and `response` remembers the last fragment (initially `None`). -/
def stream_fold (frags : List StreamResponse) : String × Option StreamResponse :=
  frags.foldl (fun _ r => (r.content, some r)) ("", none)

/-- The reference extraction after the loop (src/main.py lines 166-168):
`if hasattr(response, "reference") and response.reference:` — the attribute
must exist and be truthy (a non-empty list); then each entry is normalized. -/
def extract_references : Option StreamResponse → List RefDict
  | none => []
  | some r =>
      match r.reference with
      | none => []
      | some [] => []
      | some (x :: xs) => (x :: xs).map format_reference

/-- `process_stream_response` (src/main.py lines 151-173) on a stream that
delivers `frags` and then either ends normally (`err = none`) or raises with
message `err = some e`.  On success it returns the last fragment's full
content and the normalized references of the last fragment; on failure the
`except` branch returns the fixed apology text and `[]`, independent of any
partial content accumulated before the failure. -/
def process_stream_response (frags : List StreamResponse) (err : Option String) :
    String × List RefDict :=
  match err with
  | some e => (stream_error_text e, [])
  | none =>
      let st := stream_fold frags
      (st.1, extract_references st.2)

/-- `generate_unique_name` (src/main.py lines 132-136).  The wall clock
(`int(time.time())`) and the random uuid string (`str(uuid.uuid4())`) are
external inputs, passed as parameters; the function keeps the uuid's first 8
characters (`[:8]`) and formats `f"{prefix}_{timestamp}_{unique_id}"`. -/
def generate_unique_name (pfx : String) (timestamp : Nat) (uuid_str : String) : String :=
  pfx ++ "_" ++ toString timestamp ++ "_" ++ uuid_str.take 8

/-- A lowercase hexadecimal digit, the alphabet of Python's `str(uuid.uuid4())`. -/
def is_hex_digit (c : Char) : Bool :=
  c.isDigit || (('a' : Char) ≤ c && c ≤ ('f' : Char))

/-- One entry of `st.session_state.messages`: the dicts built at src/main.py
lines 204, 238-240 and 257-260.  `reference = []` models the absent key (the
code only adds `"reference"` when the list is non-empty, line 239). -/
structure Message where
  role : String
  content : String
  reference : List RefDict
deriving DecidableEq, Repr

/-- A backend chat object as returned by `rag_object.create_chat`: it carries
the name and the dataset ids it was created with (a snapshot of
`st.session_state.selected_datasets`, src/main.py lines 216-219). -/
structure ChatObj where
  id : Nat
  name : String
  dataset_ids : List String
deriving DecidableEq, Repr

/-- A backend session object as returned by `chat.create_session`
(src/main.py line 224). -/
structure SessionObj where
  id : Nat
  chat_id : Nat
  name : String
deriving DecidableEq, Repr

/-- The `st.session_state` fields the conversation core mutates, plus ghost
instrumentation: `rag_available` models `rag_object` being non-None,
`chats_created` / `sessions_created` count backend `create_chat` /
`create_session` calls, `asks_in_conv` counts `session.ask` invocations on a
live session since the start of the current conversation, and `next_id`
supplies fresh backend object ids. -/
structure AppState where
  active_chat : Option ChatObj
  active_session : Option SessionObj
  messages : List Message
  selected_datasets : List String
  rag_available : Bool
  chats_created : Nat
  sessions_created : Nat
  asks_in_conv : Nat
  next_id : Nat
deriving DecidableEq, Repr

/-- `init_session_state` (src/main.py lines 18-38): everything starts empty;
`rag` records whether `init_ragflow` produced a client. -/
def init_state (rag : Bool) : AppState :=
  { active_chat := none
    active_session := none
    messages := []
    selected_datasets := []
    rag_available := rag
    chats_created := 0
    sessions_created := 0
    asks_in_conv := 0
    next_id := 0 }

/-- `create_new_chat` (src/main.py lines 57-68): clears the message history
and the active chat/session pair, keeps the selected datasets.  The ghost
per-conversation ask counter restarts with the new conversation. -/
def create_new_chat (s : AppState) : AppState :=
  { s with messages := [], active_chat := none, active_session := none,
           asks_in_conv := 0 }

/-- The sidebar selection update (src/main.py line 89):
`st.session_state.selected_datasets = selected_datasets` — full replacement. -/
def set_selection (ids : List String) (s : AppState) : AppState :=
  { s with selected_datasets := ids }

/-- The dataset-selection gate (src/main.py line 209):
`if rag_object and st.session_state.selected_datasets:`. -/
def gate_open (s : AppState) : Bool :=
  s.rag_available && !s.selected_datasets.isEmpty

/-- The static notice appended when the gate rejects a turn
(src/main.py lines 256-260). -/
def validation_notice : String := "请先选择至少一个知识库，并确保 RAGFlow 连接正常"

/-- Lines 213-227 of src/main.py: if there is no `active_chat`, create a chat
bound to the current `selected_datasets` and a session under it, store both,
and use the new session; otherwise use `st.session_state.active_session`
unchanged (which the code does not check for `None`). Returns the `session`
variable and the updated state. -/
def ensure_session (chat_name session_name : String) (s : AppState) :
    Option SessionObj × AppState :=
  match s.active_chat with
  | none =>
      let chat : ChatObj := ⟨s.next_id, chat_name, s.selected_datasets⟩
      let sess : SessionObj := ⟨s.next_id + 1, chat.id, session_name⟩
      (some sess,
       { s with active_chat := some chat
                active_session := some sess
                chats_created := s.chats_created + 1
                sessions_created := s.sessions_created + 1
                next_id := s.next_id + 2 })
  | some _ => (s.active_session, s)

/-- How far the backend lets one gated turn proceed: both creations succeed
(`ok`), `create_chat` raises, or `create_session` raises after the chat was
created.  When `active_chat` already exists no creation happens and the value
is irrelevant. -/
inductive CreateOutcome where
  | ok
  | chatFail (e : String)
  | sessionFail (e : String)
deriving DecidableEq, Repr

/-- The error text `process_stream_response` produces when the `session`
variable is Python `None` and `session.ask` raises `AttributeError`
(the lines 226-227 path taken with `active_session = None`); the real
message quotes `NoneType` and `ask`. -/
def none_session_error : String :=
  stream_error_text "NoneType object has no attribute ask"

/-- The part of a gated turn that reaches the streaming call (src/main.py
lines 213-242, when neither creation raises): ensure the chat/session pair,
run `process_stream_response` on the streamed fragments, and append the
assistant message.  When the `session` variable ends up `None` (possible only
if a previous turn created the chat but not the session), `session.ask`
raises `AttributeError` inside `process_stream_response`, whose `except`
branch turns it into the apology message — no backend turn is sent. -/
def submit_with_session (chat_name session_name : String)
    (frags : List StreamResponse) (err : Option String) (s0 : AppState) : AppState :=
  let es := ensure_session chat_name session_name s0
  match es.1 with
  | none =>
      { es.2 with messages := es.2.messages ++
          [Message.mk "assistant" none_session_error []] }
  | some _ =>
      let pr := process_stream_response frags err
      { es.2 with asks_in_conv := es.2.asks_in_conv + 1
                  messages := es.2.messages ++ [Message.mk "assistant" pr.1 pr.2] }

/-- One chat-input turn of `main_content` (src/main.py lines 202-260).  The
user message is appended first (line 204).  If the gate is closed, the static
assistant notice is appended and nothing touches the backend (lines 254-260).
Otherwise the chat/session pair is ensured and the stream consumed
(lines 213-242), with the two creation-failure paths caught by the `except`
at line 247, which appends nothing further. -/
def submit_prompt (prompt chat_name session_name : String) (co : CreateOutcome)
    (frags : List StreamResponse) (err : Option String) (s : AppState) : AppState :=
  let s0 := { s with messages := s.messages ++ [Message.mk "user" prompt []] }
  if gate_open s then
    match s0.active_chat with
    | none =>
        match co with
        | .chatFail _ => s0
        | .sessionFail _ =>
            { s0 with active_chat := some ⟨s0.next_id, chat_name, s0.selected_datasets⟩
                      chats_created := s0.chats_created + 1
                      next_id := s0.next_id + 1 }
        | .ok => submit_with_session chat_name session_name frags err s0
    | some _ => submit_with_session chat_name session_name frags err s0
  else
    { s0 with messages := s0.messages ++ [Message.mk "assistant" validation_notice []] }

/-- The user-initiated operations of one UI session: submitting a prompt
(with the backend behaviour for that turn), re-rendering the sidebar
selection, and the new-conversation reset button. -/
inductive Op where
  | submit (prompt chat_name session_name : String) (co : CreateOutcome)
      (frags : List StreamResponse) (err : Option String)
  | select (ids : List String)
  | reset
deriving Repr

/-- One operation applied to the app state. -/
def step (s : AppState) : Op → AppState
  | .submit p cn sn co frags err => submit_prompt p cn sn co frags err s
  | .select ids => set_selection ids s
  | .reset => create_new_chat s

/-- The state after a sequence of operations from a fresh UI session. -/
def run (rag : Bool) (ops : List Op) : AppState :=
  ops.foldl step (init_state rag)

/-! ## Lemmas about the stream loop -/

/-- The `for` loop of `process_stream_response` leaves `full_response` and
`response` equal to the last fragment's content and the last fragment,
whatever the initial accumulator. -/
theorem stream_loop_last (rs : List StreamResponse) :
    ∀ (r : StreamResponse) (a : String × Option StreamResponse),
      (r :: rs).foldl (fun _ x => (x.content, some x)) a
        = (((r :: rs).getLast (List.cons_ne_nil r rs)).content,
           some ((r :: rs).getLast (List.cons_ne_nil r rs))) := by
  induction rs with
  | nil => intro r a; rfl
  | cons r2 rs2 ih =>
      intro r a
      rw [List.foldl_cons, ih r2 ((fun _ x => (x.content, some x)) a r)]
      rw [List.getLast_cons (List.cons_ne_nil r2 rs2)]

/-- `stream_fold` of a non-empty fragment list yields the last fragment. -/
theorem stream_fold_eq_last (frags : List StreamResponse) (h : frags ≠ []) :
    stream_fold frags = ((frags.getLast h).content, some (frags.getLast h)) := by
  cases frags with
  | nil => exact absurd rfl h
  | cons r rs => exact stream_loop_last rs r ("", none)

/-! ## C1: last snapshot wins -/

/-- C1: for every non-empty fragment sequence consumed without error, the
final text returned by the stream accumulator is the content of the last
fragment — each iteration overwrites `full_response` with the fragment's full
content, so no deltas are ever concatenated. -/
theorem stream_accumulator_last_wins (frags : List StreamResponse) (h : frags ≠ []) :
    (process_stream_response frags none).1 = (frags.getLast h).content := by
  show (stream_fold frags).1 = (frags.getLast h).content
  rw [stream_fold_eq_last frags h]

/-- Witness for C1 at the spec's two concrete sequences: the growing sequence
`["H", "He", "Hello"]` yields `"Hello"` and the shrinking sequence
`["Hello", "Hel"]` yields `"Hel"`. -/
theorem stream_accumulator_last_wins_witness :
    (process_stream_response [⟨"H", none⟩, ⟨"He", none⟩, ⟨"Hello", none⟩] none).1 = "Hello" ∧
    (process_stream_response [⟨"Hello", none⟩, ⟨"Hel", none⟩] none).1 = "Hel" :=
  ⟨stream_accumulator_last_wins [⟨"H", none⟩, ⟨"He", none⟩, ⟨"Hello", none⟩] (by simp),
   stream_accumulator_last_wins [⟨"Hello", none⟩, ⟨"Hel", none⟩] (by simp)⟩

/-! ## C10: empty stream -/

/-- C10: the empty fragment sequence produces `("", [])` without failing:
`full_response` is still `""` and the last-response variable is still `None`
when the reference check runs, and `hasattr(None, "reference")` is false. -/
theorem stream_accumulator_empty :
    process_stream_response [] none = ("", []) := rfl

/-! ## C3: mid-stream error handling -/

/-- Counterexample to C3 as stated: after accumulating the partial text
`"Hello"`, a mid-stream error `"boom"` yields a result identical to the one
produced with no partial text at all — the fixed apology string, which does
not contain the accumulated partial text `"Hello"` as a substring. -/
theorem stream_error_drops_partial_counterexample :
    (process_stream_response [⟨"Hello", none⟩] (some "boom")).1
      = (process_stream_response [] (some "boom")).1 ∧
    (process_stream_response [⟨"Hello", none⟩] (some "boom")).1
      = "抱歉，处理您的问题时出现错误: boom" ∧
    ¬ ("Hello".toList <:+:
        (process_stream_response [⟨"Hello", none⟩] (some "boom")).1.toList) :=
  ⟨rfl, rfl, by decide⟩

/-- C3 amended: on any mid-stream error the accumulator catches the exception
and returns the fixed apology text annotated with the error message together
with an empty reference list — never propagating the exception — but it
discards the partial text accumulated so far rather than including it. -/
theorem stream_error_caught (frags : List StreamResponse) (e : String) :
    process_stream_response frags (some e) = (stream_error_text e, []) := rfl

/-! ## C2: reference normalizer -/

/-- Counterexample to C2 as stated: a plain mapping missing all four fields
(the empty dict) is returned unchanged, not replaced by the defaulted
record — the `isinstance(ref, dict)` branch performs no default
substitution. -/
theorem format_reference_dict_counterexample :
    format_reference (RawRef.dict []) = [] ∧
    format_reference (RawRef.dict []) ≠ default_reference := by
  exact ⟨rfl, by simp [format_reference, default_reference]⟩

/-- C2 amended: `format_reference` is total; an attribute-object input has
each of the four absent attributes replaced by its documented default (so the
object missing all four maps to the fully-defaulted record), while a plain
mapping input is returned unchanged with no default substitution. -/
theorem format_reference_total_defaults (d : RefDict) :
    format_reference (RawRef.dict d) = d ∧
    format_reference (RawRef.obj ⟨none, none, none, none⟩) = default_reference :=
  ⟨rfl, rfl⟩

/-! ## C9: unique name format -/

/-- C9: whenever the first 8 characters of the uuid string are 8 lowercase
hex digits (as they are for every canonical `str(uuid.uuid4())`), the
generated name is exactly the prefix, an underscore, the decimal Unix
timestamp, an underscore, and those 8 hex characters. -/
theorem generate_unique_name_form (pfx : String) (t : Nat) (u : String)
    (hlen : (u.take 8).length = 8)
    (hhex : (u.take 8).toList.all is_hex_digit = true) :
    ∃ hex : String,
      generate_unique_name pfx t u = pfx ++ "_" ++ toString t ++ "_" ++ hex ∧
      hex.length = 8 ∧ hex.toList.all is_hex_digit = true :=
  ⟨u.take 8, rfl, hlen, hhex⟩

/-- Witness for C9 at a concrete canonical uuid string and timestamp. -/
theorem generate_unique_name_form_witness :
    ∃ hex : String,
      generate_unique_name "Chat" 1744000000 "89abcdef-0123-4567-89ab-cdef01234567"
        = "Chat" ++ "_" ++ toString 1744000000 ++ "_" ++ hex ∧
      hex.length = 8 ∧ hex.toList.all is_hex_digit = true :=
  generate_unique_name_form "Chat" 1744000000 "89abcdef-0123-4567-89ab-cdef01234567"
    (by decide) (by decide)

/-! ## C6: reset clears history and session, keeps selection -/

/-- C6: after `create_new_chat` the message history is empty and both the
active chat and the active session are `none`, while the selected datasets
are left unchanged. -/
theorem create_new_chat_clears (s : AppState) :
    (create_new_chat s).messages = [] ∧
    (create_new_chat s).active_chat = none ∧
    (create_new_chat s).active_session = none ∧
    (create_new_chat s).selected_datasets = s.selected_datasets :=
  ⟨rfl, rfl, rfl, rfl⟩

/-! ## C4: lazy creation is idempotent -/

/-- C4: starting from any state of a fresh conversation (no active chat),
running the ensure step twice without an intervening reset returns the same
session object both times, creates exactly one backend chat and one backend
session in total, and the second run performs no backend calls and leaves the
state untouched. -/
theorem ensure_session_idempotent (s : AppState) (n1 n2 n3 n4 : String)
    (h : s.active_chat = none) :
    (ensure_session n3 n4 (ensure_session n1 n2 s).2).1 = (ensure_session n1 n2 s).1 ∧
    (ensure_session n1 n2 s).1.isSome = true ∧
    (ensure_session n3 n4 (ensure_session n1 n2 s).2).2 = (ensure_session n1 n2 s).2 ∧
    (ensure_session n1 n2 s).2.chats_created = s.chats_created + 1 ∧
    (ensure_session n1 n2 s).2.sessions_created = s.sessions_created + 1 := by
  simp [ensure_session, h]

/-- Witness for C4 at the initial state. -/
theorem ensure_session_idempotent_witness :
    (ensure_session "Chat_2" "Session_2" (ensure_session "Chat_1" "Session_1" (init_state true)).2).1
      = (ensure_session "Chat_1" "Session_1" (init_state true)).1 ∧
    (ensure_session "Chat_1" "Session_1" (init_state true)).1.isSome = true ∧
    (ensure_session "Chat_2" "Session_2" (ensure_session "Chat_1" "Session_1" (init_state true)).2).2
      = (ensure_session "Chat_1" "Session_1" (init_state true)).2 ∧
    (ensure_session "Chat_1" "Session_1" (init_state true)).2.chats_created
      = (init_state true).chats_created + 1 ∧
    (ensure_session "Chat_1" "Session_1" (init_state true)).2.sessions_created
      = (init_state true).sessions_created + 1 :=
  ensure_session_idempotent (init_state true) "Chat_1" "Session_1" "Chat_2" "Session_2" rfl

/-! ## C7: dataset ids are snapshotted at chat creation -/

/-- C7: the chat created by the ensure step is bound to the dataset ids
selected at creation time, and a later selection change does not alter the
active chat's bound ids. -/
theorem selection_snapshot (s : AppState) (n1 n2 : String) (ids : List String)
    (h : s.active_chat = none) :
    ∃ c : ChatObj,
      (set_selection ids (ensure_session n1 n2 s).2).active_chat = some c ∧
      c.dataset_ids = s.selected_datasets := by
  refine ⟨⟨s.next_id, n1, s.selected_datasets⟩, ?_, rfl⟩
  simp [ensure_session, set_selection, h]

/-- Witness for C7: create the chat with selection `{A, B}`, then change the
selection to `{C}`; the active chat's bound ids are still `{A, B}`. -/
theorem selection_snapshot_witness :
    ∃ c : ChatObj,
      (set_selection ["C"]
        (ensure_session "Chat_1" "Session_1"
          (set_selection ["A", "B"] (init_state true))).2).active_chat = some c ∧
      c.dataset_ids = ["A", "B"] :=
  selection_snapshot (set_selection ["A", "B"] (init_state true)) "Chat_1" "Session_1" ["C"] rfl

/-! ## C5: gate rejection -/

/-- C5: submitting a prompt while no dataset is selected (or while the
backend client is unavailable) makes no backend call and leaves every state
field unchanged except the history, to which the user turn and the static
assistant-role notice are appended — no exception is thrown. -/
theorem gate_rejection (s : AppState) (p cn sn : String) (co : CreateOutcome)
    (frags : List StreamResponse) (err : Option String)
    (h : s.selected_datasets = [] ∨ s.rag_available = false) :
    submit_prompt p cn sn co frags err s =
      { s with messages := s.messages ++
          [Message.mk "user" p [], Message.mk "assistant" validation_notice []] } := by
  have hg : gate_open s = false := by
    cases h with
    | inl h1 => simp [gate_open, h1]
    | inr h2 => simp [gate_open, h2]
  simp [submit_prompt, hg]

/-- Witness for C5 at the initial state (empty selection). -/
theorem gate_rejection_witness :
    submit_prompt "x" "Chat_1" "Session_1" CreateOutcome.ok [] none (init_state true) =
      { init_state true with messages := (init_state true).messages ++
          [Message.mk "user" "x" [], Message.mk "assistant" validation_notice []] } :=
  gate_rejection (init_state true) "x" "Chat_1" "Session_1" CreateOutcome.ok [] none (Or.inl rfl)

/-! ## C8: active session ⇔ a turn has been sent -/

/-- The invariant of claim C8: the active session exists exactly when at
least one turn has been sent to the backend (`session.ask` invoked on a live
session) in the current conversation. -/
def session_turn_invariant (s : AppState) : Prop :=
  s.active_session.isSome = true ↔ 0 < s.asks_in_conv

/-- Every operation preserves the session/turn invariant. -/
theorem step_preserves_invariant (s : AppState) (op : Op)
    (h : session_turn_invariant s) : session_turn_invariant (step s op) := by
  cases op with
  | reset => simp [step, create_new_chat, session_turn_invariant]
  | select ids => simpa [step, set_selection, session_turn_invariant] using h
  | submit p cn sn co frags err =>
      simp only [step, submit_prompt]
      by_cases hg : gate_open s
      · simp only [hg, if_true]
        cases hc : s.active_chat with
        | none =>
            cases co with
            | chatFail e => simpa [hc, session_turn_invariant] using h
            | sessionFail e => simpa [hc, session_turn_invariant] using h
            | ok =>
                simp [hc, submit_with_session, ensure_session, session_turn_invariant]
        | some c =>
            cases hs : s.active_session with
            | none =>
                simpa [hc, hs, submit_with_session, ensure_session,
                  session_turn_invariant] using h
            | some sess =>
                simp [hc, hs, submit_with_session, ensure_session,
                  session_turn_invariant]
      · simpa [hg, session_turn_invariant] using h

/-- Folding any operation list preserves the session/turn invariant. -/
theorem foldl_preserves_invariant (ops : List Op) :
    ∀ s : AppState, session_turn_invariant s →
      session_turn_invariant (ops.foldl step s) := by
  induction ops with
  | nil => intro s h; exact h
  | cons op rest ih => intro s h; exact ih _ (step_preserves_invariant s op h)

/-- C8: in every state reachable by any sequence of submits, selection
changes and resets from a fresh UI session, the active session is non-none
exactly when at least one turn has been sent to the backend in the current
conversation. -/
theorem active_session_iff_turn_sent (rag : Bool) (ops : List Op) :
    (run rag ops).active_session.isSome = true ↔ 0 < (run rag ops).asks_in_conv :=
  foldl_preserves_invariant ops (init_state rag)
    (by simp [session_turn_invariant, init_state])

end RAGFlowAssistant
